import Mathlib

/-
Verification of the Chiv2-Community C2ServerAPI client library
(src/serverBrowser.py), a thin HTTP/JSON wrapper over a game-server
registry backend.  The embedding models JSON values, Python exceptions,
HTTP requests and responses, and each operation of the module as a pure
request builder together with a pure response handler.
-/

namespace ServerBrowser

/-- A JSON value as produced by the json module of Python.  Numbers are
modelled as rationals, which carry both integer-valued and fractional
JSON numbers exactly. -/
inductive Json where
  | null : Json
  | bool (b : Bool) : Json
  | num (q : ℚ) : Json
  | str (s : String) : Json
  | arr (xs : List Json) : Json
  | obj (fields : List (String × Json)) : Json

/-- The Python exceptions the module can raise. -/
inductive PyError where
  | runtimeError (msg : String) : PyError
  | keyError (key : String) : PyError
  | typeError (msg : String) : PyError
  | valueError (msg : String) : PyError
deriving DecidableEq, Repr

/-- Python dict subscription d[k]: the value at the first matching key,
a KeyError when the key is missing, a TypeError when the value is not a
dict. -/
def Json.get (j : Json) (k : String) : Except PyError Json :=
  match j with
  | .obj fields =>
    match fields.lookup k with
    | some v => .ok v
    | none => .error (.keyError k)
  | _ => .error (.typeError "value is not subscriptable by string")

/-- The top-level key list of a JSON object, in insertion order; empty
for non-objects. -/
def Json.topKeys : Json → List String
  | .obj fields => fields.map Prod.fst
  | _ => []

/-- Python str() as applied by the format method of __buildError.  The
string case is exact; the numeric rendering of Python is approximated
by the rational rendering of Lean (no claim depends on it). -/
def pyStr : Json → String
  | .null => "None"
  | .bool b => if b then "True" else "False"
  | .num q => toString q
  | .str s => s
  | .arr _ => "[...]"
  | .obj _ => "\x7b...\x7d"

/-- Python float() on a JSON value: the identity on numbers, 1 or 0 on
booleans, an error otherwise.  (Conversion of numeric strings is not
modelled; no claim exercises it.) -/
def pyFloat : Json → Except PyError ℚ
  | .num q => .ok q
  | .bool b => .ok (if b then 1 else 0)
  | .str _ => .error (.valueError "could not convert string to float")
  | _ => .error (.typeError "float argument must be a string or a number")

/-- An HTTP response as seen through the requests library: the status
code and the body; body = none models a body that response.json()
cannot decode. -/
structure HttpResponse where
  status_code : Int
  body : Option Json


/-- response.ok of the requests library: true below 400. -/
def HttpResponse.ok (r : HttpResponse) : Bool := r.status_code < 400

/-- response.json(): the parsed body, or the decode error the requests
library raises on an unparseable body. -/
def HttpResponse.jsonBody (r : HttpResponse) : Except PyError Json :=
  match r.body with
  | some j => .ok j
  | none => .error (.valueError "response body could not be decoded as JSON")

/-- The HTTP methods the module uses. -/
inductive Method where
  | get | post | put | delete
deriving DecidableEq, Repr

/-- An outgoing HTTP request: method, URL, headers and optional JSON
body, exactly the data the module hands to the requests library. -/
structure HttpRequest where
  method : Method
  url : String
  headers : List (String × String)
  reqBody : Option Json


/-- __buildError(errorCode, errResponse): formats the detailed error
string; subscription of the three fields happens before the string is
built, so a missing key escapes as a KeyError. -/
def buildError (errorCode : Int) (errResponse : Json) : Except PyError String := do
  let m ← errResponse.get "message"
  let c ← errResponse.get "context"
  let s ← errResponse.get "status"
  pure ("Server could not be updated: error " ++ toString errorCode ++ ".\n"
    ++ "Message: " ++ pyStr m ++ "\n"
    ++ "Context: " ++ pyStr c ++ "\n"
    ++ "Status: " ++ pyStr s ++ "\n")

/-- __checkResponse(response): always raises.  An unparseable body gives
a generic RuntimeError with the status code; a parsed body gives the
detailed error outside [500, 600) (or the KeyError escaping from
__buildError) and the generic server-error message inside [500, 600). -/
def checkResponse (response : HttpResponse) : PyError :=
  match response.body with
  | none =>
    .runtimeError ("Server error (could not parse response body): "
      ++ toString response.status_code)
  | some parsed =>
    if ¬ (500 ≤ response.status_code ∧ response.status_code < 600) then
      match buildError response.status_code parsed with
      | .ok msg => .runtimeError msg
      | .error e => e
    else
      .runtimeError ("Server error: " ++ toString response.status_code)

/-- The JSON request body serverObj built by registerServer, with the
fields in the insertion order of the source. -/
def serverObj (gamePort pingPort queryPort : Int) (name description current_map : String)
    (player_count max_players : Int) (mods : List Json) : Json :=
  .obj [("ports", .obj [("game", .num gamePort), ("ping", .num pingPort),
          ("a2s", .num queryPort)]),
        ("name", .str name),
        ("description", .str description),
        ("current_map", .str current_map),
        ("player_count", .num player_count),
        ("max_players", .num max_players),
        ("mods", .arr mods)]

/-- The request registerServer issues: POST address/api/v1/servers with
serverObj as JSON body and no headers beyond what the transport adds. -/
def registerServerRequest (address : String) (gamePort pingPort queryPort : Int)
    (name description current_map : String) (player_count max_players : Int)
    (mods : List Json) : HttpRequest :=
  { method := .post
    url := address ++ "/api/v1/servers"
    headers := []
    reqBody := some (serverObj gamePort pingPort queryPort name description current_map
      player_count max_players mods) }

/-- How registerServer handles the response: __checkResponse on a
non-ok status, otherwise the triple of the unique id, the key and the
refresh deadline converted by float(). -/
def registerServerResult (response : HttpResponse) : Except PyError (Json × Json × ℚ) :=
  if ¬ response.ok then
    .error (checkResponse response)
  else do
    let jsResponse ← response.jsonBody
    let server ← jsResponse.get "server"
    let uid ← server.get "unique_id"
    let key ← jsResponse.get "key"
    let rb ← jsResponse.get "refresh_before"
    let refresh ← pyFloat rb
    pure (uid, key, refresh)

/-- The updateBody JSON object of updateServer. -/
def updateBody (player_count max_players : Int) (current_map : String) : Json :=
  .obj [("player_count", .num player_count),
        ("max_players", .num max_players),
        ("current_map", .str current_map)]

/-- The header dict attached by updateServer, delete and heartbeat:
exactly the access-key header. -/
def accessHeaders (key : String) : List (String × String) :=
  [("x-chiv2-server-browser-key", key)]

/-- The request updateServer issues: PUT address/api/v1/servers/uid
with the access-key header and the updateBody JSON body. -/
def updateServerRequest (address unique_id key : String)
    (player_count max_players : Int) (current_map : String) : HttpRequest :=
  { method := .put
    url := address ++ "/api/v1/servers/" ++ unique_id
    headers := accessHeaders key
    reqBody := some (updateBody player_count max_players current_map) }

/-- How updateServer handles the response: __checkResponse on a non-ok
status, otherwise None. -/
def updateServerResult (response : HttpResponse) : Except PyError Unit :=
  if ¬ response.ok then .error (checkResponse response) else pure ()

/-- The request delete issues: DELETE address/api/v1/servers/uid with
the access-key header and an empty JSON object body. -/
def deleteRequest (address unique_id key : String) : HttpRequest :=
  { method := .delete
    url := address ++ "/api/v1/servers/" ++ unique_id
    headers := accessHeaders key
    reqBody := some (.obj []) }

/-- How delete handles the response: __checkResponse on a non-ok
status, otherwise None. -/
def deleteResult (response : HttpResponse) : Except PyError Unit :=
  if ¬ response.ok then .error (checkResponse response) else pure ()

/-- The request heartbeat issues: POST to the heartbeat path of the
server with the access-key header and no body.  The fourth parameter
port of the source appears in the signature and nowhere else. -/
def heartbeatRequest (address unique_id key : String) (port : Int) : HttpRequest :=
  { method := .post
    url := address ++ "/api/v1/servers/" ++ unique_id ++ "/heartbeat"
    headers := accessHeaders key
    reqBody := none }

/-- How heartbeat handles the response: __checkResponse on a non-ok
status, otherwise float() of the refresh_before field of the parsed
body. -/
def heartbeatResult (response : HttpResponse) : Except PyError ℚ :=
  if ¬ response.ok then
    .error (checkResponse response)
  else do
    let jsResponse ← response.jsonBody
    let rb ← jsResponse.get "refresh_before"
    pyFloat rb

/-- The whole observable behaviour of one heartbeat call on a given
response: the request it sends and the value returned or error raised. -/
def heartbeat (address unique_id key : String) (port : Int)
    (response : HttpResponse) : HttpRequest × Except PyError ℚ :=
  (heartbeatRequest address unique_id key port, heartbeatResult response)

/-- The request getServerList issues: GET address/api/v1/servers with
no headers and no body. -/
def getServerListRequest (address : String) : HttpRequest :=
  { method := .get
    url := address ++ "/api/v1/servers"
    headers := []
    reqBody := none }

/-- How getServerList handles the response: __checkResponse on a
non-ok status, otherwise the servers field of the parsed body,
untouched. -/
def getServerListResult (response : HttpResponse) : Except PyError Json :=
  if ¬ response.ok then
    .error (checkResponse response)
  else do
    let jsResponse ← response.jsonBody
    jsResponse.get "servers"

/-- A heap of Python list objects, addressed by index, used to state
that registerServer leaves the mods list of the caller untouched. -/
def ListHeap := List (List Json)

/-- registerServer run against a heap holding the mods list of the
caller: the body embeds the list read from the heap, the call performs
no write, and the response is handled as usual.  Returns the final
heap, the request sent and the outcome. -/
def registerServerOnHeap (heap : ListHeap) (modsRef : Nat) (address : String)
    (gamePort pingPort queryPort : Int) (name description current_map : String)
    (player_count max_players : Int) (response : HttpResponse) :
    ListHeap × HttpRequest × Except PyError (Json × Json × ℚ) :=
  (heap,
   registerServerRequest address gamePort pingPort queryPort name description
     current_map player_count max_players (heap.getD modsRef []),
   registerServerResult response)


/-- Claim C1: for a non-success response whose body parses as JSON,
a status code in [500, 600) yields the generic error message carrying
only the status code, while any other non-success status yields the
detailed message carrying the status code together with the message,
context and status fields of the JSON error body.  Non-success is the
ok test of the requests library (status code at least 400). -/
theorem c1_checkResponse_severity_split (code : Int) (body : Json)
    (_hfail : ¬ (HttpResponse.ok ⟨code, some body⟩ = true)) :
    (500 ≤ code ∧ code < 600 →
      checkResponse ⟨code, some body⟩ =
        .runtimeError ("Server error: " ++ toString code)) ∧
    (¬ (500 ≤ code ∧ code < 600) → ∀ m c s : String,
      body.get "message" = .ok (.str m) →
      body.get "context" = .ok (.str c) →
      body.get "status" = .ok (.str s) →
      checkResponse ⟨code, some body⟩ =
        .runtimeError ("Server could not be updated: error " ++ toString code ++ ".\n"
          ++ "Message: " ++ m ++ "\n" ++ "Context: " ++ c ++ "\n"
          ++ "Status: " ++ s ++ "\n")) := by
  constructor
  · intro h5
    simp [checkResponse, h5]
  · intro h5 m c s hm hc hs
    simp [checkResponse, h5, buildError, hm, hc, hs, pyStr, Except.bind, Bind.bind, Pure.pure, Except.pure]

/-- Concrete instances of the C1 theorem: status 503 gives the generic
message, and status 404 with the example body of the spec gives the
detailed message containing 404, not found, server and error. -/
theorem c1_witness :
    (¬ (HttpResponse.ok ⟨503, some (.obj [("message", .str "m"), ("context", .str "c"), ("status", .str "s")])⟩ = true)) ∧
    checkResponse ⟨503, some (.obj [("message", .str "m"), ("context", .str "c"), ("status", .str "s")])⟩ =
      .runtimeError "Server error: 503" ∧
    checkResponse ⟨404, some (.obj [("message", .str "not found"), ("context", .str "server"), ("status", .str "error")])⟩ =
      .runtimeError "Server could not be updated: error 404.\nMessage: not found\nContext: server\nStatus: error\n" := by
  refine ⟨by decide, ?_, ?_⟩
  · exact (c1_checkResponse_severity_split 503 _ (by decide)).1 (by decide)
  · exact (c1_checkResponse_severity_split 404 _ (by decide)).2 (by decide) "not found" "server" "error" rfl rfl rfl

/-- Claim C2: for every success response to register whose parsed body
carries server.unique_id, key and a numeric refresh_before, the call
returns exactly the triple of those three values, the deadline passed
through float() unchanged. -/
theorem c2_registerServer_success (resp : HttpResponse) (bodyJ server uid key : Json) (r : ℚ)
    (hok : resp.ok = true)
    (hbody : resp.body = some bodyJ)
    (hserver : bodyJ.get "server" = .ok server)
    (huid : server.get "unique_id" = .ok uid)
    (hkey : bodyJ.get "key" = .ok key)
    (hrb : bodyJ.get "refresh_before" = .ok (.num r)) :
    registerServerResult resp = .ok (uid, key, r) := by
  simp [registerServerResult, hok, HttpResponse.jsonBody, hbody, hserver, huid, hkey, hrb, pyFloat, Except.bind, Bind.bind, Pure.pure, Except.pure, Except.map, Functor.map]

/-- Concrete instance of the C2 theorem: the echoed body of the spec
yields exactly the triple (abc, k, 123.5). -/
theorem c2_witness :
    registerServerResult ⟨200, some (.obj [("server", .obj [("unique_id", .str "abc")]), ("key", .str "k"), ("refresh_before", .num 123.5)])⟩ =
      .ok (.str "abc", .str "k", (123.5 : ℚ)) :=
  c2_registerServer_success _ _ _ _ _ _ (by decide) rfl rfl rfl rfl rfl




/-- Claim C3: for all parameter values, the JSON body built by
registerServer has exactly the top-level fields ports, name,
description, current_map, player_count, max_players and mods, and the
nested ports object has exactly the keys game, ping and a2s bound to
gamePort, pingPort and queryPort respectively. -/
theorem c3_register_body_exact_fields (address : String) (gamePort pingPort queryPort : Int)
    (name description current_map : String) (player_count max_players : Int) (mods : List Json) :
    ∃ body ports,
      (registerServerRequest address gamePort pingPort queryPort name description
          current_map player_count max_players mods).reqBody = some body ∧
      body.topKeys = ["ports", "name", "description", "current_map",
        "player_count", "max_players", "mods"] ∧
      body.get "ports" = .ok ports ∧
      ports.topKeys = ["game", "ping", "a2s"] ∧
      ports.get "game" = .ok (.num gamePort) ∧
      ports.get "ping" = .ok (.num pingPort) ∧
      ports.get "a2s" = .ok (.num queryPort) ∧
      body.get "name" = .ok (.str name) ∧
      body.get "description" = .ok (.str description) ∧
      body.get "current_map" = .ok (.str current_map) ∧
      body.get "player_count" = .ok (.num player_count) ∧
      body.get "max_players" = .ok (.num max_players) ∧
      body.get "mods" = .ok (.arr mods) :=
  ⟨_, _, rfl, rfl, rfl, rfl, rfl, rfl, rfl, rfl, rfl, rfl, rfl, rfl, rfl⟩

/-- Claim C4: updateServer, delete and heartbeat each send exactly the
single header x-chiv2-server-browser-key bound to the supplied key, and
the rest of the request (method, URL, body) does not depend on the key,
so no other authentication mechanism is attached. -/
theorem c4_access_key_header_only (address unique_id key : String)
    (player_count max_players : Int) (current_map : String) (port : Int) :
    (updateServerRequest address unique_id key player_count max_players current_map).headers
        = [("x-chiv2-server-browser-key", key)] ∧
    (deleteRequest address unique_id key).headers = [("x-chiv2-server-browser-key", key)] ∧
    (heartbeatRequest address unique_id key port).headers
        = [("x-chiv2-server-browser-key", key)] ∧
    (∀ key2 : String,
      updateServerRequest address unique_id key2 player_count max_players current_map =
        { updateServerRequest address unique_id key player_count max_players current_map with
            headers := accessHeaders key2 }) ∧
    (∀ key2 : String, deleteRequest address unique_id key2 =
        { deleteRequest address unique_id key with headers := accessHeaders key2 }) ∧
    (∀ key2 : String, heartbeatRequest address unique_id key2 port =
        { heartbeatRequest address unique_id key port with headers := accessHeaders key2 }) :=
  ⟨rfl, rfl, rfl, fun _ => rfl, fun _ => rfl, fun _ => rfl⟩

/-- Counterexample to claim C5 as stated: a status-200 response whose
body cannot be decoded as JSON makes updateServer return None and raise
nothing at all, so not every undecodable body produces a generic error
carrying the status code. -/
theorem c5_parse_failure_not_always_error : updateServerResult ⟨200, none⟩ = .ok () := rfl

/-- Claim C5 as amended: for every operation, whenever a non-success
response (not ok, status code at least 400) has a body that cannot be
decoded as JSON, the call raises the generic RuntimeError carrying the
raw status code and no backend-supplied text. -/
theorem c5_unparseable_nonsuccess_generic (resp : HttpResponse)
    (hfail : ¬ resp.ok = true) (hbody : resp.body = none) :
    registerServerResult resp =
      .error (.runtimeError ("Server error (could not parse response body): "
        ++ toString resp.status_code)) ∧
    updateServerResult resp =
      .error (.runtimeError ("Server error (could not parse response body): "
        ++ toString resp.status_code)) ∧
    deleteResult resp =
      .error (.runtimeError ("Server error (could not parse response body): "
        ++ toString resp.status_code)) ∧
    heartbeatResult resp =
      .error (.runtimeError ("Server error (could not parse response body): "
        ++ toString resp.status_code)) ∧
    getServerListResult resp =
      .error (.runtimeError ("Server error (could not parse response body): "
        ++ toString resp.status_code)) := by
  refine ⟨?_, ?_, ?_, ?_, ?_⟩ <;>
    simp [registerServerResult, updateServerResult, deleteResult, heartbeatResult,
      getServerListResult, hfail, checkResponse, hbody]

/-- Concrete instances of the amended C5 theorem at status 503 with an
undecodable body: the message is exactly the generic one containing
503. -/
theorem c5_witness :
    (¬ (HttpResponse.ok ⟨503, none⟩) = true) ∧
    updateServerResult ⟨503, none⟩ =
      .error (.runtimeError "Server error (could not parse response body): 503") ∧
    heartbeatResult ⟨503, none⟩ =
      .error (.runtimeError "Server error (could not parse response body): 503") :=
  ⟨by decide, (c5_unparseable_nonsuccess_generic ⟨503, none⟩ (by decide) rfl).2.1,
    (c5_unparseable_nonsuccess_generic ⟨503, none⟩ (by decide) rfl).2.2.2.1⟩

/-- Claim C6 fails on the code: a non-success response with the
parseable JSON body of an empty object makes the call raise a KeyError
escaping from __buildError, which is not the uniform RuntimeError the
docstrings of the module promise for every non-ok status. -/
theorem c6_missing_fields_escape_as_keyError :
    updateServerResult ⟨404, some (.obj [])⟩ = .error (.keyError "message") ∧
    ∀ msg : String, PyError.keyError "message" ≠ PyError.runtimeError msg :=
  ⟨rfl, fun _ h => PyError.noConfusion h⟩

/-- Claim C7: heartbeat issues POST address/api/v1/servers/uid/heartbeat
with exactly the access-key header and an empty body, its observable
behaviour is the same for every value of the unused port parameter, and
on success it returns float() of the refresh_before field of the body,
exactly. -/
theorem c7_heartbeat_contract (address unique_id key : String) (port : Int)
    (resp : HttpResponse) (bodyJ : Json) (r : ℚ)
    (hok : resp.ok = true) (hbody : resp.body = some bodyJ)
    (hrb : bodyJ.get "refresh_before" = .ok (.num r)) :
    (heartbeat address unique_id key port resp).1 =
      { method := .post
        url := address ++ "/api/v1/servers/" ++ unique_id ++ "/heartbeat"
        headers := [("x-chiv2-server-browser-key", key)]
        reqBody := none } ∧
    (∀ port2 : Int, heartbeat address unique_id key port2 resp
        = heartbeat address unique_id key port resp) ∧
    (heartbeat address unique_id key port resp).2 = .ok r := by
  refine ⟨rfl, fun _ => rfl, ?_⟩
  simp [heartbeat, heartbeatResult, hok, HttpResponse.jsonBody, hbody, hrb, pyFloat,
    Except.bind, Bind.bind]

/-- Concrete instances of the C7 theorem: an integer-valued and a
fractional refresh deadline are both returned exactly, and the request
sent is the expected POST with the access-key header and no body. -/
theorem c7_witness :
    (heartbeat "http://h" "id1" "k1" 7 ⟨200, some (.obj [("refresh_before", .num 42)])⟩).2
        = .ok (42 : ℚ) ∧
    (heartbeat "http://h" "id1" "k1" 7 ⟨200, some (.obj [("refresh_before", .num 123.5)])⟩).2
        = .ok (123.5 : ℚ) ∧
    (heartbeat "http://h" "id1" "k1" 7 ⟨200, some (.obj [("refresh_before", .num 42)])⟩).1
        = { method := .post
            url := "http://h/api/v1/servers/id1/heartbeat"
            headers := [("x-chiv2-server-browser-key", "k1")]
            reqBody := none } :=
  ⟨(c7_heartbeat_contract "http://h" "id1" "k1" 7 ⟨200, some (.obj [("refresh_before", .num 42)])⟩
      (.obj [("refresh_before", .num 42)]) 42 (by decide) rfl rfl).2.2,
   (c7_heartbeat_contract "http://h" "id1" "k1" 7 ⟨200, some (.obj [("refresh_before", .num 123.5)])⟩
      (.obj [("refresh_before", .num 123.5)]) 123.5 (by decide) rfl rfl).2.2,
   (c7_heartbeat_contract "http://h" "id1" "k1" 7 ⟨200, some (.obj [("refresh_before", .num 42)])⟩
      (.obj [("refresh_before", .num 42)]) 42 (by decide) rfl rfl).1⟩

/-- Claim C8: for every success response to getServerList whose parsed
body has a servers field, the call returns that field unmodified. -/
theorem c8_getServerList_passthrough (resp : HttpResponse) (bodyJ servers : Json)
    (hok : resp.ok = true) (hbody : resp.body = some bodyJ)
    (hs : bodyJ.get "servers" = .ok servers) :
    getServerListResult resp = .ok servers := by
  simp [getServerListResult, hok, HttpResponse.jsonBody, hbody, hs, Except.bind, Bind.bind]

/-- Concrete instance of the C8 theorem: a 200 response whose servers
array holds the single record with unique_id x returns exactly that
one-element array. -/
theorem c8_witness :
    getServerListResult ⟨200, some (.obj [("servers", .arr [.obj [("unique_id", .str "x")]])])⟩
      = .ok (.arr [.obj [("unique_id", .str "x")]]) :=
  c8_getServerList_passthrough _ _ _ (by decide) rfl rfl

/-- Claim C9: the observable behaviour of heartbeat (request sent and
value returned or error raised) is identical for any two values of the
port parameter. -/
theorem c9_heartbeat_port_independent (address unique_id key : String)
    (p1 p2 : Int) (resp : HttpResponse) :
    heartbeat address unique_id key p1 resp = heartbeat address unique_id key p2 resp := rfl

/-- Claim C10: registerServer run against a heap holding the mods list
of the caller leaves the heap unchanged whatever the response, and the
serialized mods field of the request body is exactly the list read from
the heap (the shared default empty list included, via the default value
of getD). -/
theorem c10_register_preserves_mods (heap : ListHeap) (modsRef : Nat) (address : String)
    (gamePort pingPort queryPort : Int) (name description current_map : String)
    (player_count max_players : Int) (resp : HttpResponse) :
    (registerServerOnHeap heap modsRef address gamePort pingPort queryPort name description
        current_map player_count max_players resp).1 = heap ∧
    ∃ body,
      (registerServerOnHeap heap modsRef address gamePort pingPort queryPort name description
          current_map player_count max_players resp).2.1.reqBody = some body ∧
      body.get "mods" = .ok (.arr (heap.getD modsRef [])) :=
  ⟨rfl, _, rfl, rfl⟩

end ServerBrowser
